import Mathlib

/-!
Shallow embedding of `src/main.rs` of the `error_handling` repository: three
file readers contrasting error-handling styles (a tagged `thiserror` enum, an
`anyhow` context chain, and a type-erased `Box dyn Error`), plus the driver
`main`.  File-system effects (`File::open`, `read_to_string`) are modelled as
oracles in a `FileSys` record; printing is modelled as a list of output lines
returned next to the result.  All functions are total, which reflects that the
Rust functions contain no `panic!`/`unwrap` and hence no unhandled fault can
escape them.
-/

/-- Models `std::io::ErrorKind` (only the kinds this program can meet). -/
inductive IoErrorKind where
  | notFound
  | permissionDenied
  | invalidData
  | other
deriving DecidableEq

/-- Debug rendering of an `io::ErrorKind`, as in `{:?}`. -/
def IoErrorKind.debugFmt : IoErrorKind → String
  | .notFound => "NotFound"
  | .permissionDenied => "PermissionDenied"
  | .invalidData => "InvalidData"
  | .other => "Other"

/-- Models `std::io::Error`: either an OS error (code, kind, message) or a
custom error built by `io::Error::new(kind, msg)` as in `dyn_function`. -/
inductive IoErrorRepr where
  | os (code : Int) (kind : IoErrorKind) (message : String)
  | custom (kind : IoErrorKind) (error : String)
deriving DecidableEq

/-- Models `io::Error::kind()`, used by `dyn_function` via `e.kind()`. -/
def IoErrorRepr.kind : IoErrorRepr → IoErrorKind
  | .os _ k _ => k
  | .custom k _ => k

/-- Concatenation of a list of strings (used by the debug formatter). -/
def concatAll : List String → String
  | [] => ""
  | s :: rest => s ++ concatAll rest

/-- One character of the Rust `Debug` escaping for `str`: quote and backslash
are backslash-escaped, common control characters use their short escapes, any
other control character uses a unicode escape, and every other character is
kept as-is. -/
def escapeDebugChar (c : Char) : String :=
  if c = '"' then "\\\""
  else if c = '\\' then "\\\\"
  else if c = '\n' then "\\n"
  else if c = '\t' then "\\t"
  else if c = '\r' then "\\r"
  else if c = '\x00' then "\\0"
  else if c.toNat < 32 then "\\u\x7b" ++ (Nat.toDigits 16 c.toNat).asString ++ "\x7d"
  else String.singleton c

/-- Rust `Debug` formatting of a string: surrounding quotes plus per-character
escaping, as produced by `println!("\x7b:?\x7d", s)`. -/
def rustDebugStr (s : String) : String :=
  "\"" ++ concatAll (s.data.map escapeDebugChar) ++ "\""

/-- Debug rendering of an `io::Error`, e.g.
`Os \x7b code: 2, kind: NotFound, message: "No such file or directory" \x7d` or
`Custom \x7b kind: NotFound, error: "Failed to open myfile.txt" \x7d`. -/
def IoErrorRepr.debugFmt : IoErrorRepr → String
  | .os code k msg =>
      "Os \x7b code: " ++ toString code ++ ", kind: " ++ k.debugFmt ++
        ", message: " ++ rustDebugStr msg ++ " \x7d"
  | .custom k err =>
      "Custom \x7b kind: " ++ k.debugFmt ++ ", error: " ++ rustDebugStr err ++ " \x7d"

/-- Display rendering of an `io::Error`: OS errors show
`<message> (os error <code>)`; custom errors show their message. -/
def IoErrorRepr.displayFmt : IoErrorRepr → String
  | .os code _ msg => msg ++ " (os error " ++ toString code ++ ")"
  | .custom _ err => err

/-- Models `anyhow::Error` as used here: a list of context messages (newest
first, each added by `.with_context`) over a root cause.  In this program the
root cause is always an `io::Error`. -/
structure AnyhowError where
  context : List String
  root : IoErrorRepr
deriving DecidableEq

/-- Display rendering of an `anyhow::Error`: the outermost message. -/
def AnyhowError.displayFmt (e : AnyhowError) : String :=
  match e.context with
  | [] => e.root.displayFmt
  | m :: _ => m

/-- The cause lines below the top message in the anyhow debug report: a single
cause is indented, several causes are numbered. -/
def anyhowCausesFmt : List String → String
  | [c] => "    " ++ c
  | cs => String.intercalate "\n"
      (cs.enum.map (fun p => "    " ++ toString p.fst ++ ": " ++ p.snd))

/-- Debug rendering of an `anyhow::Error` (what `\x7b:?\x7d` prints): the top
context message, a blank line, `Caused by:`, then the remaining chain down to
the root cause display. -/
def AnyhowError.debugFmt (e : AnyhowError) : String :=
  match e.context with
  | [] => e.root.displayFmt
  | m :: rest => m ++ "\n\nCaused by:\n" ++ anyhowCausesFmt (rest ++ [e.root.displayFmt])

/-- The `DataStoreError` enum of `src/main.rs` (derived `Error`, `Debug`):
`IoError \x7b source, file \x7d`, `InvalidHeader \x7b expected, found \x7d`,
and the `Other(anyhow::Error)` escape hatch. -/
inductive DataStoreError where
  | IoError (source : IoErrorRepr) (file : String)
  | InvalidHeader (expected : String) (found : String)
  | Other (err : AnyhowError)
deriving DecidableEq

/-- Derived `Debug` rendering of `DataStoreError`, e.g.
`IoError \x7b source: ..., file: "myfile.txt" \x7d`. -/
def DataStoreError.debugFmt : DataStoreError → String
  | .IoError src file =>
      "IoError \x7b source: " ++ src.debugFmt ++ ", file: " ++ rustDebugStr file ++ " \x7d"
  | .InvalidHeader e f =>
      "InvalidHeader \x7b expected: " ++ rustDebugStr e ++ ", found: " ++ rustDebugStr f ++ " \x7d"
  | .Other e => "Other(" ++ e.debugFmt ++ ")"

/-- Display rendering of `DataStoreError` from the `#[error(...)]` attributes:
a fixed message, the header message, or (transparently) the inner error. -/
def DataStoreError.displayFmt : DataStoreError → String
  | .IoError _ _ => "data store disconnected"
  | .InvalidHeader e f =>
      "invalid header (expected " ++ rustDebugStr e ++ ", found " ++ rustDebugStr f ++ ")"
  | .Other e => e.displayFmt

/-- Models `Box<dyn Error>` (the `DynError` alias): in this program the only
concrete type ever boxed is `io::Error`. -/
inductive DynError where
  | ioError (e : IoErrorRepr)
deriving DecidableEq

/-- Models `Box<dyn Error>::downcast::<io::Error>`: recovers the concrete
`io::Error` when that is what the box holds. -/
def DynError.downcastIo : DynError → Option IoErrorRepr
  | .ioError e => some e

/-- Debug rendering of the boxed error delegates to the inner `io::Error`. -/
def DynError.debugFmt : DynError → String
  | .ioError e => e.debugFmt

/-- The ambient file system, as the two effects the readers perform:
`openRes p` is the outcome of `File::open(p)` (the handle carries no further
data the readers use, so it is `Unit`), and `readRes p` is the outcome of
`read_to_string` on the handle opened at `p`. -/
structure FileSys where
  openRes : String → Except IoErrorRepr Unit
  readRes : String → Except IoErrorRepr String

/-- A path that does not exist: `File::open` fails with a `NotFound` error. -/
def FileSys.missingAt (fs : FileSys) (p : String) : Prop :=
  ∃ e, fs.openRes p = Except.error e ∧ e.kind = IoErrorKind.notFound

/-- A path naming an existing readable text file with contents `c`: open
succeeds and reading yields `c`. -/
def FileSys.readableAt (fs : FileSys) (p : String) (c : String) : Prop :=
  fs.openRes p = Except.ok () ∧ fs.readRes p = Except.ok c

/-- `thiserror_function` of `src/main.rs`: open, mapping failure to
`DataStoreError::IoError \x7b source: e, file \x7d`; read to string, mapping
failure identically; on success print the debug form of the contents and
return `Ok(())`.  The second component collects the printed lines. -/
def thiserror_function (fs : FileSys) (file : String) :
    Except DataStoreError Unit × List String :=
  match fs.openRes file with
  | Except.error e => (Except.error (DataStoreError.IoError e file), [])
  | Except.ok _ =>
    match fs.readRes file with
    | Except.error e => (Except.error (DataStoreError.IoError e file), [])
    | Except.ok contents => (Except.ok (), [rustDebugStr contents])

/-- `anyhow_function` of `src/main.rs`: open with context
`format!("Failed to open \x7b\x7d", file)`, read with context
`format!("Failed to read \x7b\x7d", file)`, print the debug form of the
contents on success. -/
def anyhow_function (fs : FileSys) (file : String) :
    Except AnyhowError Unit × List String :=
  match fs.openRes file with
  | Except.error e => (Except.error ⟨["Failed to open " ++ file], e⟩, [])
  | Except.ok _ =>
    match fs.readRes file with
    | Except.error e => (Except.error ⟨["Failed to read " ++ file], e⟩, [])
    | Except.ok contents => (Except.ok (), [rustDebugStr contents])

/-- `dyn_function` of `src/main.rs`: each failure is replaced by a fresh
`io::Error::new(e.kind(), format!(...))` carrying only the kind and a message,
boxed as `Box<dyn Error>`. -/
def dyn_function (fs : FileSys) (file : String) :
    Except DynError Unit × List String :=
  match fs.openRes file with
  | Except.error e =>
      (Except.error (DynError.ioError
        (IoErrorRepr.custom e.kind ("Failed to open " ++ file))), [])
  | Except.ok _ =>
    match fs.readRes file with
    | Except.error e =>
        (Except.error (DynError.ioError
          (IoErrorRepr.custom e.kind ("Failed to read " ++ file))), [])
    | Except.ok contents => (Except.ok (), [rustDebugStr contents])

/-- `main` of `src/main.rs`: call the three readers on `"myfile.txt"` in
sequence, print each returned error in debug form with its label, and return
`Ok(())`.  The output collects the reader prints and the error reports in
program order. -/
def mainFn (fs : FileSys) : Except DynError Unit × List String :=
  let r1 := thiserror_function fs "myfile.txt"
  let l1 := match r1.fst with
    | Except.error e => ["Thiserror error: " ++ e.debugFmt]
    | Except.ok _ => []
  let r2 := anyhow_function fs "myfile.txt"
  let l2 := match r2.fst with
    | Except.error e => ["Anyhow error: " ++ e.debugFmt]
    | Except.ok _ => []
  let r3 := dyn_function fs "myfile.txt"
  let l3 := match r3.fst with
    | Except.error e => ["BoxDyn error: " ++ e.debugFmt]
    | Except.ok _ => []
  (Except.ok (), r1.snd ++ l1 ++ r2.snd ++ l2 ++ r3.snd ++ l3)

/-- The OS error `File::open` reports for a missing path on Unix. -/
def osNotFound : IoErrorRepr :=
  IoErrorRepr.os 2 IoErrorKind.notFound "No such file or directory"

/-- A file system on which every open fails as `NotFound`. -/
def fsEmpty : FileSys :=
  ⟨fun _ => Except.error osNotFound, fun _ => Except.error osNotFound⟩

/-- A file system on which every path reads as the text `a`. -/
def fsA : FileSys :=
  ⟨fun _ => Except.ok (), fun _ => Except.ok "a"⟩

/-- A file system on which every path reads as the text `b`. -/
def fsB : FileSys :=
  ⟨fun _ => Except.ok (), fun _ => Except.ok "b"⟩

/-- A file system on which open succeeds but reading fails as the non-UTF-8
error `read_to_string` produces. -/
def fsReadFail : FileSys :=
  ⟨fun _ => Except.ok (),
   fun _ => Except.error
     (IoErrorRepr.custom IoErrorKind.invalidData "stream did not contain valid UTF-8")⟩

/-- Decides whether `pat` occurs as a contiguous run inside `l`. -/
def occursInAux (pat : List Char) : List Char → Bool
  | [] => pat.isEmpty
  | c :: rest => pat.isPrefixOf (c :: rest) || occursInAux pat rest

/-- Decides whether the string `pat` occurs as a substring of `s`. -/
def occursIn (pat s : String) : Bool :=
  occursInAux pat.data s.data

/-- Claim C1: for every path that does not exist, each of the three readers
returns a failure result, never a success; the readers are total functions, so
no unhandled fault escapes them. -/
theorem readers_fail_on_missing (fs : FileSys) (file : String)
    (h : fs.missingAt file) :
    (∃ e, (thiserror_function fs file).fst = Except.error e) ∧
    (∃ e, (anyhow_function fs file).fst = Except.error e) ∧
    (∃ e, (dyn_function fs file).fst = Except.error e) := by
  obtain ⟨e, he, -⟩ := h
  refine ⟨⟨DataStoreError.IoError e file, ?_⟩,
          ⟨⟨["Failed to open " ++ file], e⟩, ?_⟩,
          ⟨DynError.ioError (IoErrorRepr.custom e.kind ("Failed to open " ++ file)), ?_⟩⟩ <;>
    simp [thiserror_function, anyhow_function, dyn_function, he]

/-- Witness for C1 at the file system with no files and the path of `main`. -/
theorem readers_fail_on_missing_w :
    (∃ e, (thiserror_function fsEmpty "myfile.txt").fst = Except.error e) ∧
    (∃ e, (anyhow_function fsEmpty "myfile.txt").fst = Except.error e) ∧
    (∃ e, (dyn_function fsEmpty "myfile.txt").fst = Except.error e) :=
  readers_fail_on_missing fsEmpty "myfile.txt" ⟨osNotFound, rfl, rfl⟩

/-- Claim C2: on a missing path the tagged reader returns exactly the
`IoError` variant, with `file` equal to the input path verbatim and `source`
carrying the underlying I/O error. -/
theorem thiserror_missing_io_variant (fs : FileSys) (file : String)
    (h : fs.missingAt file) :
    ∃ e, fs.openRes file = Except.error e ∧ e.kind = IoErrorKind.notFound ∧
      (thiserror_function fs file).fst =
        Except.error (DataStoreError.IoError e file) := by
  obtain ⟨e, he, hk⟩ := h
  exact ⟨e, he, hk, by simp [thiserror_function, he]⟩

/-- Witness for C2 at the empty file system. -/
theorem thiserror_missing_io_variant_w :
    ∃ e, fsEmpty.openRes "myfile.txt" = Except.error e ∧
      e.kind = IoErrorKind.notFound ∧
      (thiserror_function fsEmpty "myfile.txt").fst =
        Except.error (DataStoreError.IoError e "myfile.txt") :=
  thiserror_missing_io_variant fsEmpty "myfile.txt" ⟨osNotFound, rfl, rfl⟩

/-- Claim C4: a failure while reading the opened file is mapped to the same
`IoError` variant (cause plus file path) as a failure while opening; no
separate variant distinguishes the two call sites. -/
theorem thiserror_read_failure_same_variant (fs : FileSys) (file : String)
    (e : IoErrorRepr) (hOpen : fs.openRes file = Except.ok ())
    (hRead : fs.readRes file = Except.error e) :
    (thiserror_function fs file).fst =
      Except.error (DataStoreError.IoError e file) := by
  simp [thiserror_function, hOpen, hRead]

/-- Witness for C4 at a file system whose read fails with the invalid-UTF-8
error. -/
theorem thiserror_read_failure_same_variant_w :
    (thiserror_function fsReadFail "myfile.txt").fst =
      Except.error (DataStoreError.IoError
        (IoErrorRepr.custom IoErrorKind.invalidData "stream did not contain valid UTF-8")
        "myfile.txt") :=
  thiserror_read_failure_same_variant fsReadFail "myfile.txt" _ rfl rfl

/-- Claim C9: every error the tagged reader returns is the `IoError` variant;
the declared `InvalidHeader` and `Other` variants are never produced. -/
theorem thiserror_only_io_variant (fs : FileSys) (file : String)
    (err : DataStoreError)
    (h : (thiserror_function fs file).fst = Except.error err) :
    ∃ e, err = DataStoreError.IoError e file := by
  cases hOpen : fs.openRes file with
  | error e =>
      simp [thiserror_function, hOpen] at h
      exact ⟨e, h.symm⟩
  | ok u =>
      cases hRead : fs.readRes file with
      | error e =>
          simp [thiserror_function, hOpen, hRead] at h
          exact ⟨e, h.symm⟩
      | ok c =>
          simp [thiserror_function, hOpen, hRead] at h

/-- Witness for C9 at the empty file system. -/
theorem thiserror_only_io_variant_w :
    ∃ e, DataStoreError.IoError osNotFound "myfile.txt" =
      DataStoreError.IoError e "myfile.txt" :=
  thiserror_only_io_variant fsEmpty "myfile.txt"
    (DataStoreError.IoError osNotFound "myfile.txt") rfl

/-- Claim C10: every error the erased reader returns concretely boxes an
`io::Error` whose kind equals the kind of the original underlying failure, so
a downcast to `io::Error` always succeeds. -/
theorem dyn_error_downcast_kind (fs : FileSys) (file : String) (err : DynError)
    (h : (dyn_function fs file).fst = Except.error err) :
    ∃ ioe, err = DynError.ioError ioe ∧
      DynError.downcastIo err = some ioe ∧
      ((∃ e, fs.openRes file = Except.error e ∧ ioe.kind = e.kind) ∨
       (∃ e, fs.openRes file = Except.ok () ∧
         fs.readRes file = Except.error e ∧ ioe.kind = e.kind)) := by
  cases hOpen : fs.openRes file with
  | error e =>
      simp [dyn_function, hOpen] at h
      subst h
      exact ⟨_, rfl, rfl, Or.inl ⟨e, rfl, rfl⟩⟩
  | ok u =>
      cases u
      cases hRead : fs.readRes file with
      | error e =>
          simp [dyn_function, hOpen, hRead] at h
          subst h
          exact ⟨_, rfl, rfl, Or.inr ⟨e, rfl, rfl, rfl⟩⟩
      | ok c =>
          simp [dyn_function, hOpen, hRead] at h

/-- Witness for C10 at the empty file system. -/
theorem dyn_error_downcast_kind_w :
    ∃ ioe,
      DynError.ioError
          (IoErrorRepr.custom IoErrorKind.notFound "Failed to open myfile.txt") =
        DynError.ioError ioe ∧
      DynError.downcastIo
          (DynError.ioError
            (IoErrorRepr.custom IoErrorKind.notFound "Failed to open myfile.txt")) =
        some ioe ∧
      ((∃ e, fsEmpty.openRes "myfile.txt" = Except.error e ∧ ioe.kind = e.kind) ∨
       (∃ e, fsEmpty.openRes "myfile.txt" = Except.ok () ∧
         fsEmpty.readRes "myfile.txt" = Except.error e ∧ ioe.kind = e.kind)) :=
  dyn_error_downcast_kind fsEmpty "myfile.txt" _ rfl

/-- Counterexample to C3 as stated: two file systems giving the same path
different contents produce identical success results, so no reader returns
the file contents — the success value is unit and the contents are only
printed. -/
theorem readers_success_value_not_contents :
    (thiserror_function fsA "f.txt").fst = (thiserror_function fsB "f.txt").fst ∧
    fsA.readRes "f.txt" ≠ fsB.readRes "f.txt" := by
  refine ⟨rfl, ?_⟩
  simp [fsA, fsB]

/-- Claim C3 amended: on a path to an existing readable text file each of the
three readers succeeds — the success value is unit, not the contents — after
reading exactly the file contents, which it prints in debug form. -/
theorem readers_read_exact_contents (fs : FileSys) (file c : String)
    (h : fs.readableAt file c) :
    thiserror_function fs file = (Except.ok (), [rustDebugStr c]) ∧
    anyhow_function fs file = (Except.ok (), [rustDebugStr c]) ∧
    dyn_function fs file = (Except.ok (), [rustDebugStr c]) := by
  obtain ⟨ho, hr⟩ := h
  refine ⟨?_, ?_, ?_⟩ <;>
    simp [thiserror_function, anyhow_function, dyn_function, ho, hr]

/-- Witness for the amended C3 at a file reading as the text `a`. -/
theorem readers_read_exact_contents_w :
    thiserror_function fsA "f.txt" = (Except.ok (), [rustDebugStr "a"]) ∧
    anyhow_function fsA "f.txt" = (Except.ok (), [rustDebugStr "a"]) ∧
    dyn_function fsA "f.txt" = (Except.ok (), [rustDebugStr "a"]) :=
  readers_read_exact_contents fsA "f.txt" "a" ⟨rfl, rfl⟩

/-- Counterexample to C8 as stated: a file with contents `a` is printed as the
debug form `"a"` (with quotes), not verbatim. -/
theorem printed_line_not_verbatim :
    (thiserror_function fsA "f.txt").snd = ["\"a\""] ∧
    ("\"a\"" : String) ≠ "a" :=
  ⟨rfl, by decide⟩

/-- Claim C8 amended: on success each reader prints, as its sole output, one
line holding the debug (quoted, escaped) rendering of the contents it read,
and discards the contents, returning unit. -/
theorem readers_sole_output_debug (fs : FileSys) (file c : String)
    (h : fs.readableAt file c) :
    (thiserror_function fs file).snd = [rustDebugStr c] ∧
    (anyhow_function fs file).snd = [rustDebugStr c] ∧
    (dyn_function fs file).snd = [rustDebugStr c] ∧
    (thiserror_function fs file).fst = Except.ok () ∧
    (anyhow_function fs file).fst = Except.ok () ∧
    (dyn_function fs file).fst = Except.ok () := by
  obtain ⟨ho, hr⟩ := h
  refine ⟨?_, ?_, ?_, ?_, ?_, ?_⟩ <;>
    simp [thiserror_function, anyhow_function, dyn_function, ho, hr]

/-- Witness for the amended C8 at a file reading as the text `a`. -/
theorem readers_sole_output_debug_w :
    (thiserror_function fsA "f.txt").snd = [rustDebugStr "a"] ∧
    (anyhow_function fsA "f.txt").snd = [rustDebugStr "a"] ∧
    (dyn_function fsA "f.txt").snd = [rustDebugStr "a"] ∧
    (thiserror_function fsA "f.txt").fst = Except.ok () ∧
    (anyhow_function fsA "f.txt").fst = Except.ok () ∧
    (dyn_function fsA "f.txt").fst = Except.ok () :=
  readers_sole_output_debug fsA "f.txt" "a" ⟨rfl, rfl⟩

/-- Claim C7: the driver calls the three readers in sequence on the same path
`myfile.txt`, prints the debug representation of each returned error, and
returns success for every file system — no failure propagates to the process
boundary.  When the path is missing with underlying error `e`, the output is
exactly the three labelled error reports in order. -/
theorem main_reports_and_succeeds (fs : FileSys) :
    (mainFn fs).fst = Except.ok () ∧
    (∀ e, fs.openRes "myfile.txt" = Except.error e →
      (mainFn fs).snd =
        ["Thiserror error: " ++ (DataStoreError.IoError e "myfile.txt").debugFmt,
         "Anyhow error: " ++ AnyhowError.debugFmt ⟨["Failed to open myfile.txt"], e⟩,
         "BoxDyn error: " ++ DynError.debugFmt (DynError.ioError
           (IoErrorRepr.custom e.kind "Failed to open myfile.txt"))]) := by
  refine ⟨rfl, ?_⟩
  intro e he
  simp only [mainFn, thiserror_function, anyhow_function, dyn_function, he]
  rfl

/-- Witness for C7 at the empty file system. -/
theorem main_reports_and_succeeds_w :
    (mainFn fsEmpty).fst = Except.ok () ∧
    (mainFn fsEmpty).snd =
      ["Thiserror error: " ++ (DataStoreError.IoError osNotFound "myfile.txt").debugFmt,
       "Anyhow error: " ++ AnyhowError.debugFmt ⟨["Failed to open myfile.txt"], osNotFound⟩,
       "BoxDyn error: " ++ DynError.debugFmt (DynError.ioError
         (IoErrorRepr.custom osNotFound.kind "Failed to open myfile.txt"))] :=
  ⟨(main_reports_and_succeeds fsEmpty).1,
   (main_reports_and_succeeds fsEmpty).2 osNotFound rfl⟩

/-- A pattern that starts the scanned list occurs in it. -/
theorem occursInAux_of_lead (pat l : List Char) (h : pat.isPrefixOf l = true) :
    occursInAux pat l = true := by
  cases l with
  | nil =>
      cases pat with
      | nil => rfl
      | cons c cs => simp [List.isPrefixOf] at h
  | cons c rest => simp [occursInAux, h]

/-- Occurrence is preserved by extending the scanned list on the left. -/
theorem occursInAux_cons (pat : List Char) (c : Char) (l : List Char)
    (h : occursInAux pat l = true) : occursInAux pat (c :: l) = true := by
  simp [occursInAux, h]

/-- A pattern occurs in any list that has it as a contiguous middle run. -/
theorem occursInAux_middle (a pat b : List Char) :
    occursInAux pat (a ++ (pat ++ b)) = true := by
  induction a with
  | nil =>
      simp only [List.nil_append]
      exact occursInAux_of_lead _ _
        (List.isPrefixOf_iff_prefix.mpr (List.prefix_append _ _))
  | cons c cs ih => exact occursInAux_cons _ _ _ ih

/-- String form: `pat` occurs in `s` whenever the character data of `s`
splits around the data of `pat`. -/
theorem occursIn_of_middle_data (pat s : String) (a b : List Char)
    (h : s.data = a ++ (pat.data ++ b)) : occursIn pat s = true := by
  unfold occursIn
  rw [h]
  exact occursInAux_middle _ _ _

/-- When every character of `l` escapes to itself, escaping is the identity. -/
theorem concatAll_escape_id (l : List Char)
    (h : ∀ c ∈ l, escapeDebugChar c = String.singleton c) :
    concatAll (l.map escapeDebugChar) = List.asString l := by
  induction l with
  | nil => rfl
  | cons c rest ih =>
      simp only [List.map_cons, concatAll]
      rw [h c (List.mem_cons_self c rest),
        ih (fun x hx => h x (List.mem_cons_of_mem c hx))]
      rfl

/-- Debug formatting of a string whose characters need no escaping just wraps
it in quotes. -/
theorem rustDebugStr_plain (s : String)
    (h : ∀ c ∈ s.data, escapeDebugChar c = String.singleton c) :
    rustDebugStr s = "\"" ++ s ++ "\"" := by
  obtain ⟨d⟩ := s
  unfold rustDebugStr
  rw [concatAll_escape_id d h]
  rfl

/-- Counterexample to C5 as stated: the context frame the code attaches is the
capitalized `Failed to open myfile.txt` and the report header is the
capitalized `Caused by:`, so neither the claimed lowercase frame
`failed to open myfile.txt` nor the claimed lowercase `caused by:` occurs in
the error or its rendering. -/
theorem anyhow_message_capitalized :
    (anyhow_function fsEmpty "myfile.txt").fst =
      Except.error ⟨["Failed to open myfile.txt"], osNotFound⟩ ∧
    (["Failed to open myfile.txt"] : List String) ≠ ["failed to open myfile.txt"] ∧
    occursIn "failed to open myfile.txt"
      (AnyhowError.debugFmt ⟨["Failed to open myfile.txt"], osNotFound⟩) = false ∧
    occursIn "caused by:"
      (AnyhowError.debugFmt ⟨["Failed to open myfile.txt"], osNotFound⟩) = false :=
  ⟨rfl, by decide, by decide, by decide⟩

/-- Claim C5 amended: on an open failure the contextual reader wraps the cause
in the single context frame `Failed to open <path>` (capitalized; on a read
failure `Failed to read <path>`), and the debug rendering is exactly the
top-level context message embedding the input path, a blank line, the
capitalized `Caused by:`, and the indented original system error text, in that
order. -/
theorem anyhow_context_frames (fs : FileSys) (file : String) :
    (∀ e, fs.openRes file = Except.error e →
      (anyhow_function fs file).fst =
        Except.error ⟨["Failed to open " ++ file], e⟩) ∧
    (∀ e, fs.openRes file = Except.ok () → fs.readRes file = Except.error e →
      (anyhow_function fs file).fst =
        Except.error ⟨["Failed to read " ++ file], e⟩) ∧
    (∀ m root, AnyhowError.debugFmt ⟨[m], root⟩ =
      m ++ "\n\nCaused by:\n" ++ ("    " ++ root.displayFmt)) := by
  refine ⟨?_, ?_, ?_⟩
  · intro e he
    simp [anyhow_function, he]
  · intro e ho hr
    simp [anyhow_function, ho, hr]
  · intro m root
    rfl

/-- Witness for the amended C5 at the empty file system. -/
theorem anyhow_context_frames_w :
    (anyhow_function fsEmpty "myfile.txt").fst =
      Except.error ⟨["Failed to open myfile.txt"], osNotFound⟩ ∧
    AnyhowError.debugFmt ⟨["Failed to open myfile.txt"], osNotFound⟩ =
      "Failed to open myfile.txt" ++ "\n\nCaused by:\n" ++
        ("    " ++ osNotFound.displayFmt) :=
  ⟨(anyhow_context_frames fsEmpty "myfile.txt").1 osNotFound rfl,
   (anyhow_context_frames fsEmpty "myfile.txt").2.2 "Failed to open myfile.txt"
     osNotFound⟩

/-- Counterexample to C6 as stated: the message the erased reader builds is
the capitalized `Failed to open myfile.txt`, so the claimed lowercase
`failed to open myfile.txt` does not occur in the rendered error. -/
theorem dyn_message_capitalized :
    (dyn_function fsEmpty "myfile.txt").fst =
      Except.error (DynError.ioError
        (IoErrorRepr.custom IoErrorKind.notFound "Failed to open myfile.txt")) ∧
    occursIn "failed to open myfile.txt"
      (DynError.debugFmt (DynError.ioError
        (IoErrorRepr.custom IoErrorKind.notFound "Failed to open myfile.txt"))) =
      false :=
  ⟨rfl, by decide⟩

/-- Claim C6 amended: on failure the erased reader builds a fresh error from
only the classification of the cause and the capitalized message
`Failed to open <path>` (or `Failed to read <path>`), discarding the cause
object; for a missing file the debug rendering contains the input path (shown
here for paths whose characters need no debug escaping) and the
classification token `NotFound`. -/
theorem dyn_error_message (fs : FileSys) (file : String) :
    (∀ e, fs.openRes file = Except.error e →
      (dyn_function fs file).fst = Except.error (DynError.ioError
        (IoErrorRepr.custom e.kind ("Failed to open " ++ file)))) ∧
    (∀ e, fs.openRes file = Except.ok () → fs.readRes file = Except.error e →
      (dyn_function fs file).fst = Except.error (DynError.ioError
        (IoErrorRepr.custom e.kind ("Failed to read " ++ file)))) ∧
    ((∀ c ∈ file.data, escapeDebugChar c = String.singleton c) →
      occursIn file
        (DynError.debugFmt (DynError.ioError (IoErrorRepr.custom
          IoErrorKind.notFound ("Failed to open " ++ file)))) = true ∧
      occursIn "NotFound"
        (DynError.debugFmt (DynError.ioError (IoErrorRepr.custom
          IoErrorKind.notFound ("Failed to open " ++ file)))) = true) := by
  refine ⟨?_, ?_, ?_⟩
  · intro e he
    simp [dyn_function, he]
  · intro e ho hr
    simp [dyn_function, ho, hr]
  · intro hesc
    have hlit : ∀ c ∈ ("Failed to open " : String).data,
        escapeDebugChar c = String.singleton c := by decide
    have hall : ∀ c ∈ ("Failed to open " ++ file).data,
        escapeDebugChar c = String.singleton c := by
      intro c hc
      rw [String.data_append] at hc
      rcases List.mem_append.mp hc with h1 | h2
      · exact hlit c h1
      · exact hesc c h2
    constructor
    · have hdata : (DynError.debugFmt (DynError.ioError (IoErrorRepr.custom
          IoErrorKind.notFound ("Failed to open " ++ file)))).data =
          ("Custom \x7b kind: " ++ IoErrorKind.debugFmt IoErrorKind.notFound ++
            ", error: " ++ "\"" ++ "Failed to open ").data ++
            (file.data ++ ("\"" ++ " \x7d").data) := by
        simp only [DynError.debugFmt, IoErrorRepr.debugFmt,
          rustDebugStr_plain _ hall, String.data_append, List.append_assoc]
      exact occursIn_of_middle_data file _ _ _ hdata
    · have hdata : (DynError.debugFmt (DynError.ioError (IoErrorRepr.custom
          IoErrorKind.notFound ("Failed to open " ++ file)))).data =
          ("Custom \x7b kind: " : String).data ++
            (("NotFound" : String).data ++
              (", error: " ++ rustDebugStr ("Failed to open " ++ file) ++
                " \x7d").data) := by
        simp only [DynError.debugFmt, IoErrorRepr.debugFmt, IoErrorKind.debugFmt,
          String.data_append, List.append_assoc]
      exact occursIn_of_middle_data "NotFound" _ _ _ hdata

/-- Witness for the amended C6 at the empty file system and the path of
`main`. -/
theorem dyn_error_message_w :
    (dyn_function fsEmpty "myfile.txt").fst =
      Except.error (DynError.ioError (IoErrorRepr.custom IoErrorKind.notFound
        ("Failed to open " ++ "myfile.txt"))) ∧
    occursIn "myfile.txt"
      (DynError.debugFmt (DynError.ioError (IoErrorRepr.custom
        IoErrorKind.notFound ("Failed to open " ++ "myfile.txt")))) = true ∧
    occursIn "NotFound"
      (DynError.debugFmt (DynError.ioError (IoErrorRepr.custom
        IoErrorKind.notFound ("Failed to open " ++ "myfile.txt")))) = true :=
  ⟨by
    have h := (dyn_error_message fsEmpty "myfile.txt").1 osNotFound rfl
    exact h,
   ((dyn_error_message fsEmpty "myfile.txt").2.2 (by decide)).1,
   ((dyn_error_message fsEmpty "myfile.txt").2.2 (by decide)).2⟩
